import Mathlib

/-!
Verification of the bulk-email campaign system (`campaigns` Django app).

The embedding below translates the data model (`campaigns/models.py`), the
Celery tasks (`campaigns/tasks.py`) and the CSV ingestion loop of
`recipient_upload` (`campaigns/views.py`) into pure Lean functions over an
explicit database state.  Django ORM calls become list operations on that
state; `timezone.now()` becomes an explicit `now : Nat` argument; the mail
transport becomes a `SendResult` argument (success or failure with a
reason); a task raising `DoesNotExist` becomes an `Option` result; Celery
`delay` calls become values returned alongside the new state (lists of
issued task identifiers / dispatched campaign ids).
-/

namespace BulkMailer

/-- Status choices of `Campaign.Status` from `campaigns/models.py`. -/
inductive CStatus where
  | draft
  | scheduled
  | in_progress
  | completed
  | cancelled
deriving DecidableEq, Repr

/-- Status choices of `DeliveryLog.Status` from `campaigns/models.py`. -/
inductive DStatus where
  | sent
  | failed
deriving DecidableEq, Repr

/-- A `Recipient` row.  `subscription_status` is kept as a string, as in the
model (`"subscribed"` / `"unsubscribed"` are the declared choices, but the
column stores free text). -/
structure Recipient where
  id : Nat
  name : String
  email : String
  subscription_status : String
  created_at : Nat
deriving DecidableEq, Repr

/-- A `Campaign` row. -/
structure Campaign where
  id : Nat
  name : String
  subject : String
  content : String
  scheduled_time : Nat
  status : CStatus
  created_at : Nat
  updated_at : Nat
deriving DecidableEq, Repr

/-- A `CampaignRecipient` join row (`unique_together ("campaign", "recipient")`). -/
structure CampaignRecipient where
  campaign_id : Nat
  recipient_id : Nat
  created_at : Nat
deriving DecidableEq, Repr

/-- A `DeliveryLog` row. -/
structure DeliveryLog where
  campaign_id : Nat
  recipient_id : Nat
  recipient_email : String
  status : DStatus
  failure_reason : String
  sent_at : Nat
deriving DecidableEq, Repr

/-- The database state: one list per table. -/
structure DB where
  campaigns : List Campaign
  recipients : List Recipient
  campaign_recipients : List CampaignRecipient
  delivery_logs : List DeliveryLog
deriving DecidableEq, Repr

/-- Lookup modelling `Campaign.objects.get(pk=...)` and
`.filter(pk=...).first()`. -/
def findCampaign (db : DB) (pk : Nat) : Option Campaign :=
  db.campaigns.find? (fun c => c.id = pk)

/-- Lookup modelling `Recipient.objects.get(pk=...)`. -/
def findRecipient (db : DB) (pk : Nat) : Option Recipient :=
  db.recipients.find? (fun r => r.id = pk)

/-- Effect of `campaign.save(update_fields=["status", "updated_at"])` after assigning
`campaign.status`: writes the new status back to the row with this pk, and
(via `auto_now` / the explicit assignment in the completion detector) sets
`updated_at` to the current time.  All other columns are untouched. -/
def saveStatus (db : DB) (pk : Nat) (st : CStatus) (now : Nat) : DB :=
  { db with
      campaigns := db.campaigns.map (fun c =>
        if c.id = pk then { c with status := st, updated_at := now } else c) }

/-- Queryset `Recipient.objects.filter(subscription_status=SUBSCRIBED)`. -/
def subscribedRecipients (db : DB) : List Recipient :=
  db.recipients.filter (fun r => r.subscription_status = "subscribed")

/-- Queryset behind `campaign.delivery_logs.count()`: the `DeliveryLog`
rows of one campaign. -/
def campaignLogs (db : DB) (campaign_id : Nat) : List DeliveryLog :=
  db.delivery_logs.filter (fun l => l.campaign_id = campaign_id)

/-- Translation of `_update_campaign_status_if_complete` from `campaigns/tasks.py`
(lines 103–121).  Fetches the campaign (`none` models `DoesNotExist`),
counts all subscribed recipients in the store, returns unchanged when that
count is zero, otherwise counts this campaign's delivery logs and, when
`total_logs >= total_subscribed`, writes `status = COMPLETED` and enqueues
the report task.  The returned `Bool` records whether
`generate_and_send_campaign_report.delay` was issued. -/
def update_campaign_status_if_complete (db : DB) (campaign_id : Nat) (now : Nat) :
    Option (DB × Bool) :=
  match findCampaign db campaign_id with
  | none => none
  | some _ =>
    if (subscribedRecipients db).length = 0 then
      some (db, false)
    else if (campaignLogs db campaign_id).length ≥ (subscribedRecipients db).length then
      some (saveStatus db campaign_id .completed now, true)
    else
      some (db, false)

/-- The transport outcome of `msg.send()` in `send_single_email`: either the
send returns, or it raises an exception whose description is the string. -/
inductive SendResult where
  | success
  | failure (reason : String)
deriving DecidableEq, Repr

/-- The `DeliveryLog` row written by `send_single_email`: `sent` with empty
`failure_reason` when `msg.send()` returns, `failed` with the exception's
description (`str(exc)`) when it raises. -/
def mkDeliveryLog (campaign_id recipient_id : Nat) (email : String)
    (res : SendResult) (now : Nat) : DeliveryLog :=
  match res with
  | .success =>
    { campaign_id := campaign_id, recipient_id := recipient_id,
      recipient_email := email, status := .sent,
      failure_reason := "", sent_at := now }
  | .failure reason =>
    { campaign_id := campaign_id, recipient_id := recipient_id,
      recipient_email := email, status := .failed,
      failure_reason := reason, sent_at := now }

/-- Translation of `send_single_email` from `campaigns/tasks.py`
(lines 63–100).  Fetches
campaign and recipient (`none` models `DoesNotExist` on either), attempts
the send, appends a `DeliveryLog` row — `sent` with empty `failure_reason`
on success, `failed` with the exception's description on failure — and then
calls `_update_campaign_status_if_complete`.  The `Bool` in the result is
the report-task flag forwarded from the completion detector. -/
def send_single_email (db : DB) (campaign_id recipient_id : Nat)
    (res : SendResult) (now : Nat) : Option (DB × Bool) :=
  match findCampaign db campaign_id, findRecipient db recipient_id with
  | some _, some recipient =>
    update_campaign_status_if_complete
      { db with delivery_logs :=
          db.delivery_logs ++ [mkDeliveryLog campaign_id recipient_id recipient.email res now] }
      campaign_id now
  | _, _ => none

/-- The `CampaignRecipient` existence check performed by `get_or_create`. -/
def joinExists (db : DB) (campaign_id recipient_id : Nat) : Bool :=
  db.campaign_recipients.any
    (fun cr => cr.campaign_id = campaign_id ∧ cr.recipient_id = recipient_id)

/-- Effect of `CampaignRecipient.objects.get_or_create(campaign=..., recipient=...)`:
appends a join row only when none exists for the pair. -/
def getOrCreateCampaignRecipient (db : DB) (campaign_id recipient_id : Nat)
    (now : Nat) : DB :=
  if joinExists db campaign_id recipient_id then
    db
  else
    { db with campaign_recipients :=
        db.campaign_recipients ++
          [{ campaign_id := campaign_id, recipient_id := recipient_id,
             created_at := now }] }

/-- Insertion sort of recipients by ascending id, modelling `.order_by("id")`. -/
def insertById (r : Recipient) : List Recipient → List Recipient
  | [] => [r]
  | x :: xs => if r.id ≤ x.id then r :: x :: xs else x :: insertById r xs

/-- Ordering `.order_by("id")` on a recipient queryset. -/
def orderById (rs : List Recipient) : List Recipient :=
  rs.foldr insertById []

/-- Translation of `send_campaign_emails` from `campaigns/tasks.py`
(lines 42–60).  Fetches
the campaign (`none` models `DoesNotExist`), enumerates subscribed
recipients ordered by id, and for each one idempotently creates the
`CampaignRecipient` join row and issues a `send_single_email` task.  The
returned list holds the `(campaign_id, recipient_id)` pairs of the issued
tasks, in order. -/
def send_campaign_emails (db : DB) (campaign_id : Nat) (now : Nat) :
    Option (DB × List (Nat × Nat)) :=
  match findCampaign db campaign_id with
  | none => none
  | some _ =>
    let recips := orderById (subscribedRecipients db)
    some (recips.foldl
      (fun (st : DB × List (Nat × Nat)) r =>
        (getOrCreateCampaignRecipient st.1 campaign_id r.id now,
         st.2 ++ [(campaign_id, r.id)]))
      (db, []))

/-- The body of the claim loop in `process_scheduled_campaigns`
(`campaigns/tasks.py` lines 25–39): inside a transaction, re-read the
campaign row under `select_for_update`; if it is gone or its status is no
longer `SCHEDULED`, skip silently; otherwise write `status = IN_PROGRESS`
and issue the dispatch task.  The `Bool` records whether the claim
succeeded (and hence whether `send_campaign_emails.delay` was issued). -/
def claim_campaign (db : DB) (pk : Nat) (now : Nat) : DB × Bool :=
  match findCampaign db pk with
  | none => (db, false)
  | some c =>
    if c.status = .scheduled then
      (saveStatus db pk .in_progress now, true)
    else
      (db, false)

/-- Translation of `process_scheduled_campaigns` from `campaigns/tasks.py`
(lines 14–40):
selects the due campaigns (`status = SCHEDULED`, `scheduled_time <= now`)
from the initial state, then runs the claim body on each in turn against
the evolving state.  The returned list holds the campaign ids handed to
`send_campaign_emails.delay`. -/
def process_scheduled_campaigns (db : DB) (now : Nat) : DB × List Nat :=
  let due := db.campaigns.filter
    (fun c => c.status = .scheduled ∧ c.scheduled_time ≤ now)
  due.foldl
    (fun (st : DB × List Nat) c =>
      let next := claim_campaign st.1 c.id now
      if next.2 then (next.1, st.2 ++ [c.id]) else (st.1, st.2))
    (db, [])

/-- One raw CSV row as produced by `csv.DictReader`: each field is `none`
when the key is absent from the row (DictReader's `restval` for short rows). -/
structure RawRow where
  name : Option String
  email : Option String
  subscription_status : Option String
deriving DecidableEq, Repr

/-- Whitespace in the sense of Python's `str.strip()`. -/
def isPySpace (c : Char) : Bool :=
  c = ' ' ∨ c = '\t' ∨ c = '\n' ∨ c = '\r' ∨ c.toNat = 11 ∨ c.toNat = 12

/-- Python's `str.strip()`: drop leading and trailing whitespace.  Defined
directly on the character list so that it evaluates by kernel reduction. -/
def pyStrip (s : String) : String :=
  ⟨((s.data.dropWhile isPySpace).reverse.dropWhile isPySpace).reverse⟩

/-- Python's `str.lower()` (ASCII range, which covers every status and
email value the system compares). -/
def pyLower (s : String) : String :=
  ⟨s.data.map Char.toLower⟩

/-- Python's `x or default` on an optional string: `None` and the empty
string are falsy, so both give the default. -/
def pyOr (o : Option String) (default : String) : String :=
  match o with
  | none => default
  | some s => if s = "" then default else s

/-- The accumulator of the row loop in `recipient_upload`
(`campaigns/views.py` lines 118–150): the `existing_emails` set (seeded
from the store, grown with each accepted row), the `recipients_to_create`
batch, and the skipped / invalid counters. -/
structure IngestState where
  existing : List String
  to_create : List (String × String × String)
  skipped : Nat
  invalid : Nat
deriving DecidableEq, Repr

/-- One iteration of the row loop in `recipient_upload`
(`campaigns/views.py` lines 127–150): trim name, trim and lowercase email,
default a missing/empty `subscription_status` to `"subscribed"` then
lowercase it; count the row invalid when name or email is empty; replace a
status outside the model's choices by `"subscribed"`; skip the row when its
email is already known; otherwise queue `(name, email, status)` for
creation and remember the email. -/
def ingestRow (st : IngestState) (row : RawRow) : IngestState :=
  let name := pyStrip (pyOr row.name "")
  let email := pyLower (pyStrip (pyOr row.email ""))
  let status0 := pyLower (pyOr row.subscription_status "subscribed")
  if name = "" ∨ email = "" then
    { st with invalid := st.invalid + 1 }
  else
    let status :=
      if status0 = "subscribed" ∨ status0 = "unsubscribed" then status0
      else "subscribed"
    if email ∈ st.existing then
      { st with skipped := st.skipped + 1 }
    else
      { st with
          to_create := st.to_create ++ [(name, email, status)],
          existing := email :: st.existing }

/-- The whole row loop of `recipient_upload`, starting from the store's
email set (`Recipient.objects.values_list("email", flat=True)`). -/
def ingestRows (storeEmails : List String) (rows : List RawRow) : IngestState :=
  rows.foldl ingestRow
    { existing := storeEmails, to_create := [], skipped := 0, invalid := 0 }

/-- The counts reported by `recipient_upload` on the happy path: the bulk
insert succeeds, so `created_count = len(created_objects)` is the size of
the queued batch, alongside the skipped and invalid counters. -/
structure UploadCounts where
  created : Nat
  skipped : Nat
  invalid : Nat
deriving DecidableEq, Repr

/-- Counts reported by `recipient_upload` for a batch of rows against a
store containing the given emails. -/
def recipient_upload (storeEmails : List String) (rows : List RawRow) :
    UploadCounts :=
  let st := ingestRows storeEmails rows
  { created := st.to_create.length, skipped := st.skipped,
    invalid := st.invalid }

/-- Number of `DeliveryLog` rows for one `(campaign, recipient)` pair. -/
def pairLogCount (logs : List DeliveryLog) (cid rid : Nat) : Nat :=
  (logs.filter (fun l => l.campaign_id = cid ∧ l.recipient_id = rid)).length

/-- The database effect of the dispatcher's recipient loop: ensure a join
row for each listed recipient in turn. -/
def ensureJoins (db : DB) (campaign_id : Nat) (rs : List Recipient) (now : Nat) :
    DB :=
  rs.foldl (fun db r => getOrCreateCampaignRecipient db campaign_id r.id now) db

/-- Agreement of two campaign rows on every column other than `status` and
`updated_at` — the frame that `save(update_fields=["status", "updated_at"])`
must preserve. -/
def frameAgrees (c c' : Campaign) : Prop :=
  c'.id = c.id ∧ c'.name = c.name ∧ c'.subject = c.subject ∧
  c'.content = c.content ∧ c'.scheduled_time = c.scheduled_time ∧
  c'.created_at = c.created_at

/-- Fixture: a subscribed recipient. -/
def rSub : Recipient :=
  { id := 1, name := "R1", email := "r1@example.com",
    subscription_status := "subscribed", created_at := 0 }

/-- Fixture: an in-progress campaign. -/
def campIP : Campaign :=
  { id := 1, name := "Camp", subject := "Subj", content := "Body",
    scheduled_time := 10, status := .in_progress, created_at := 0,
    updated_at := 0 }

/-- Fixture: the same campaign, cancelled. -/
def campCancelledFx : Campaign := { campIP with status := .cancelled }

/-- Fixture: the same campaign, still scheduled. -/
def campScheduledFx : Campaign := { campIP with status := .scheduled }

/-- Fixture: a `sent` delivery log for campaign 1 / recipient 1. -/
def logSent11 : DeliveryLog :=
  { campaign_id := 1, recipient_id := 1, recipient_email := "r1@example.com",
    status := .sent, failure_reason := "", sent_at := 5 }

/-- Fixture: campaign 1 in progress, recipient 1 subscribed, join row
present, and recipient 1 already has a delivery log for campaign 1 —
the state after one full pipeline pass over one recipient. -/
def dbLogged : DB :=
  { campaigns := [campIP], recipients := [rSub],
    campaign_recipients := [{ campaign_id := 1, recipient_id := 1, created_at := 0 }],
    delivery_logs := [logSent11] }

/-- Fixture: the state `send_single_email dbLogged 1 1 .success 7` produces:
a second log row for the pair, and the campaign completed by the detector. -/
def dbLoggedAfter : DB :=
  { campaigns := [{ campIP with status := .completed, updated_at := 7 }],
    recipients := [rSub],
    campaign_recipients := [{ campaign_id := 1, recipient_id := 1, created_at := 0 }],
    delivery_logs :=
      [logSent11,
       { campaign_id := 1, recipient_id := 1, recipient_email := "r1@example.com",
         status := .sent, failure_reason := "", sent_at := 7 }] }

/-- Fixture: an in-progress campaign with no recipients at all. -/
def dbZero : DB :=
  { campaigns := [campIP], recipients := [], campaign_recipients := [],
    delivery_logs := [] }

/-- Fixture: a cancelled campaign whose delivery-log count already reaches
the subscribed-recipient count. -/
def dbCancelled : DB :=
  { campaigns := [campCancelledFx], recipients := [rSub],
    campaign_recipients := [{ campaign_id := 1, recipient_id := 1, created_at := 0 }],
    delivery_logs := [logSent11] }

/-- Fixture: a due, still-scheduled campaign with one subscribed recipient. -/
def dbSched : DB :=
  { campaigns := [campScheduledFx], recipients := [rSub],
    campaign_recipients := [], delivery_logs := [] }

/-- Fixture: the CSV batch of the spec's ingestion example. -/
def csvExample : List RawRow :=
  [{ name := some "A", email := some "a@x.com", subscription_status := some "subscribed" },
   { name := some "B", email := some "a@x.com", subscription_status := some "subscribed" },
   { name := some "", email := some "c@x.com", subscription_status := some "subscribed" }]

/-! ## General lemmas about the embedded operations -/

/-- Writing a campaign status touches only the campaigns table. -/
theorem saveStatus_delivery_logs (db : DB) (pk : Nat) (st : CStatus) (now : Nat) :
    (saveStatus db pk st now).delivery_logs = db.delivery_logs := rfl

/-- Writing a campaign status leaves the recipients table unchanged. -/
theorem saveStatus_recipients (db : DB) (pk : Nat) (st : CStatus) (now : Nat) :
    (saveStatus db pk st now).recipients = db.recipients := rfl

/-- Writing a campaign status leaves the join table unchanged. -/
theorem saveStatus_campaign_recipients (db : DB) (pk : Nat) (st : CStatus) (now : Nat) :
    (saveStatus db pk st now).campaign_recipients = db.campaign_recipients := rfl

/-- Looking up the saved pk after `saveStatus` returns the row found before,
with only `status` and `updated_at` rewritten. -/
theorem find?_id_map_save (pk : Nat) (st : CStatus) (now : Nat)
    (l : List Campaign) :
    (l.map (fun c => if c.id = pk then { c with status := st, updated_at := now } else c)).find?
        (fun c => c.id = pk) =
      (l.find? (fun c => c.id = pk)).map
        (fun c => { c with status := st, updated_at := now }) := by
  induction l with
  | nil => rfl
  | cons c cs ih =>
    by_cases h : c.id = pk
    · simp [List.find?_cons, h]
    · simp [List.find?_cons, h, ih]

theorem findCampaign_saveStatus (db : DB) (pk : Nat) (st : CStatus) (now : Nat) :
    findCampaign (saveStatus db pk st now) pk =
      (findCampaign db pk).map (fun c => { c with status := st, updated_at := now }) := by
  unfold findCampaign saveStatus
  exact find?_id_map_save pk st now db.campaigns

/-- The completion detector raises `DoesNotExist` exactly when the campaign
is missing. -/
theorem detector_none (db : DB) (cid now : Nat) (h : findCampaign db cid = none) :
    update_campaign_status_if_complete db cid now = none := by
  unfold update_campaign_status_if_complete
  rw [h]

/-- When no subscribed recipient exists, the completion detector returns the
state unchanged and does not enqueue the report task. -/
theorem detector_zero (db : DB) (cid now : Nat) (c : Campaign)
    (hc : findCampaign db cid = some c)
    (h0 : (subscribedRecipients db).length = 0) :
    update_campaign_status_if_complete db cid now = some (db, false) := by
  unfold update_campaign_status_if_complete
  rw [hc]
  simp [h0]

/-- When subscribed recipients exist and the campaign's log count reaches
their number, the completion detector writes `COMPLETED` and enqueues the
report task. -/
theorem detector_complete (db : DB) (cid now : Nat) (c : Campaign)
    (hc : findCampaign db cid = some c)
    (h0 : (subscribedRecipients db).length ≠ 0)
    (hge : (campaignLogs db cid).length ≥ (subscribedRecipients db).length) :
    update_campaign_status_if_complete db cid now =
      some (saveStatus db cid .completed now, true) := by
  unfold update_campaign_status_if_complete
  rw [hc]
  simp [h0, hge]

/-- When subscribed recipients exist but the campaign's log count is still
short, the completion detector returns the state unchanged. -/
theorem detector_incomplete (db : DB) (cid now : Nat) (c : Campaign)
    (hc : findCampaign db cid = some c)
    (h0 : (subscribedRecipients db).length ≠ 0)
    (hlt : (campaignLogs db cid).length < (subscribedRecipients db).length) :
    update_campaign_status_if_complete db cid now = some (db, false) := by
  unfold update_campaign_status_if_complete
  rw [hc]
  simp [h0, Nat.not_le.mpr hlt]

/-- Whatever the completion detector returns, it only ever rewrites the
campaigns table: logs, recipients and joins come back unchanged. -/
theorem detector_fields (db : DB) (cid now : Nat) (db' : DB) (trig : Bool)
    (h : update_campaign_status_if_complete db cid now = some (db', trig)) :
    db'.delivery_logs = db.delivery_logs ∧ db'.recipients = db.recipients ∧
      db'.campaign_recipients = db.campaign_recipients := by
  unfold update_campaign_status_if_complete at h
  cases hc : findCampaign db cid with
  | none => rw [hc] at h; cases h
  | some c =>
    rw [hc] at h
    simp only [] at h
    split at h
    · obtain ⟨h1, h2⟩ := Prod.mk.injEq .. ▸ Option.some.injEq .. ▸ h
      subst h1; exact ⟨rfl, rfl, rfl⟩
    · split at h
      · obtain ⟨h1, h2⟩ := Prod.mk.injEq .. ▸ Option.some.injEq .. ▸ h
        subst h1; exact ⟨rfl, rfl, rfl⟩
      · obtain ⟨h1, h2⟩ := Prod.mk.injEq .. ▸ Option.some.injEq .. ▸ h
        subst h1; exact ⟨rfl, rfl, rfl⟩

/-- Appending one log row for a pair raises that pair's log count by one. -/
theorem pairLogCount_append (L : List DeliveryLog) (l : DeliveryLog) (cid rid : Nat)
    (h1 : l.campaign_id = cid) (h2 : l.recipient_id = rid) :
    pairLogCount (L ++ [l]) cid rid = pairLogCount L cid rid + 1 := by
  unfold pairLogCount
  rw [List.filter_append]
  simp [List.filter, h1, h2]

/-- C1, counterexample: in a state where the pair (campaign 1, recipient 1)
already has one `DeliveryLog` row, a second `send_single_email` run for the
same pair is not skipped as a duplicate; it appends a second row, so the
pair ends with two rows. -/
theorem C1_counterexample :
    pairLogCount dbLogged.delivery_logs 1 1 = 1 ∧
    (send_single_email dbLogged 1 1 .success 7).map
        (fun p => pairLogCount p.1.delivery_logs 1 1) = some 2 := by decide

/-- C1 (amended): `send_single_email` performs no duplicate check at all —
every run that finds its campaign and recipient appends exactly one new
`DeliveryLog` row for the pair, so a pair's log count always grows by one,
even when the pair was already logged. -/
theorem C1_theorem (db : DB) (cid rid : Nat) (res : SendResult) (now : Nat)
    (db' : DB) (trig : Bool)
    (h : send_single_email db cid rid res now = some (db', trig)) :
    pairLogCount db'.delivery_logs cid rid =
      pairLogCount db.delivery_logs cid rid + 1 := by
  unfold send_single_email at h
  cases hc : findCampaign db cid with
  | none => rw [hc] at h; exact Option.noConfusion h
  | some c =>
    cases hr : findRecipient db rid with
    | none => rw [hc, hr] at h; exact Option.noConfusion h
    | some r =>
      rw [hc, hr] at h
      have h' : update_campaign_status_if_complete
          { db with delivery_logs :=
              db.delivery_logs ++ [mkDeliveryLog cid rid r.email res now] }
          cid now = some (db', trig) := h
      obtain ⟨hl, -, -⟩ := detector_fields _ _ _ _ _ h'
      rw [hl]
      exact pairLogCount_append db.delivery_logs _ cid rid
        (by cases res <;> rfl) (by cases res <;> rfl)

/-- C1, witness: the amended statement at the concrete duplicated pair. -/
theorem C1_witness :
    pairLogCount dbLoggedAfter.delivery_logs 1 1 =
      pairLogCount dbLogged.delivery_logs 1 1 + 1 :=
  C1_theorem dbLogged 1 1 .success 7 dbLoggedAfter true (by decide)

/-- C3, counterexample: an `InProgress` campaign with zero subscribed
recipients is not transitioned to `Completed`: the completion detector
returns the state unchanged, so the campaign stays `InProgress`. -/
theorem C3_counterexample :
    (findCampaign dbZero 1).map Campaign.status = some CStatus.in_progress ∧
    (subscribedRecipients dbZero).length = 0 ∧
    update_campaign_status_if_complete dbZero 1 9 = some (dbZero, false) := by decide

/-- C3 (amended): for every campaign, when the store holds zero subscribed
recipients the completion detector returns without transitioning anything
and without triggering a report — the campaign keeps its current status, so
a zero-recipient campaign in `InProgress` remains `InProgress`. -/
theorem C3_theorem (db : DB) (cid now : Nat) (c : Campaign)
    (hc : findCampaign db cid = some c)
    (h0 : (subscribedRecipients db).length = 0) :
    update_campaign_status_if_complete db cid now = some (db, false) ∧
      (findCampaign db cid).map Campaign.status = some c.status := by
  refine ⟨detector_zero db cid now c hc h0, ?_⟩
  rw [hc]
  rfl

/-- C3, witness: the amended statement at the concrete zero-recipient state. -/
theorem C3_witness :
    update_campaign_status_if_complete dbZero 1 9 = some (dbZero, false) ∧
      (findCampaign dbZero 1).map Campaign.status = some campIP.status :=
  C3_theorem dbZero 1 9 campIP (by decide) (by decide)

/-- C4, counterexample: the completion detector transitions a campaign whose
current status is `Cancelled` (not `InProgress`) to `Completed` and triggers
the report, because the code never checks the current status. -/
theorem C4_counterexample :
    (findCampaign dbCancelled 1).map Campaign.status = some CStatus.cancelled ∧
    (update_campaign_status_if_complete dbCancelled 1 9).map
        (fun p => ((findCampaign p.1 1).map Campaign.status, p.2)) =
      some (some CStatus.completed, true) := by decide

/-- C4 (amended): the completion detector computes its target as the number
of subscribed recipients in the whole store (not the campaign's
`CampaignRecipient` rows) and the logged count as the campaign's
`DeliveryLog` rows; it acts exactly when the target is positive and the
logged count reaches it, regardless of the campaign's current status, and
otherwise returns the state unchanged. -/
theorem C4_theorem (db : DB) (cid now : Nat) (c : Campaign)
    (hc : findCampaign db cid = some c) :
    ∃ db' trig, update_campaign_status_if_complete db cid now = some (db', trig) ∧
      (trig = true ↔ 0 < (subscribedRecipients db).length ∧
          (subscribedRecipients db).length ≤ (campaignLogs db cid).length) ∧
      (trig = true → db' = saveStatus db cid .completed now ∧
          (findCampaign db' cid).map Campaign.status = some CStatus.completed) ∧
      (trig = false → db' = db) := by
  by_cases h0 : (subscribedRecipients db).length = 0
  · exact ⟨db, false, detector_zero db cid now c hc h0, by simp [h0],
      by simp, fun _ => rfl⟩
  · by_cases hge : (campaignLogs db cid).length ≥ (subscribedRecipients db).length
    · refine ⟨saveStatus db cid .completed now, true,
        detector_complete db cid now c hc h0 hge, ?_, ?_, by simp⟩
      · simp [Nat.pos_of_ne_zero h0, hge]
      · intro _
        refine ⟨rfl, ?_⟩
        rw [findCampaign_saveStatus, hc]
        rfl
    · exact ⟨db, false,
        detector_incomplete db cid now c hc h0 (Nat.lt_of_not_le hge),
        by simp [hge], by simp, fun _ => rfl⟩

/-- C4, witness: the amended statement at the concrete cancelled-but-fully-
logged state. -/
theorem C4_witness :
    ∃ db' trig,
      update_campaign_status_if_complete dbCancelled 1 9 = some (db', trig) ∧
      (trig = true ↔ 0 < (subscribedRecipients dbCancelled).length ∧
          (subscribedRecipients dbCancelled).length ≤ (campaignLogs dbCancelled 1).length) ∧
      (trig = true → db' = saveStatus dbCancelled 1 .completed 9 ∧
          (findCampaign db' 1).map Campaign.status = some CStatus.completed) ∧
      (trig = false → db' = dbCancelled) :=
  C4_theorem dbCancelled 1 9 campCancelledFx (by decide)

/-- Relating a database's campaigns to those of a `saveStatus` result,
pointwise. -/
theorem forall₂_campaigns_saveStatus (db : DB) (pk : Nat) (st : CStatus)
    (now : Nat) (R : Campaign → Campaign → Prop)
    (h1 : ∀ c, R c c)
    (h2 : ∀ c, R c { c with status := st, updated_at := now }) :
    List.Forall₂ R db.campaigns (saveStatus db pk st now).campaigns := by
  unfold saveStatus
  rw [List.forall₂_map_right_iff, List.forall₂_same]
  intro c _
  by_cases h : c.id = pk
  · rw [if_pos h]; exact h2 c
  · rw [if_neg h]; exact h1 c

/-- C5, counterexample: the completion detector changes the status of a
`Cancelled` campaign — a state-machine edge that §4.2 forbids — rewriting
it to `Completed` once the log count reaches the subscribed count. -/
theorem C5_counterexample :
    (findCampaign dbCancelled 1).map Campaign.status = some CStatus.cancelled ∧
    (update_campaign_status_if_complete dbCancelled 1 9).map
        (fun p => p.1.campaigns.map Campaign.status) =
      some [CStatus.completed] := by decide

/-- C5 (amended): the Scheduler's claim leaves every campaign whose re-read
status is `Completed` or `Cancelled` untouched, and no operation moves a
campaign out of `Completed` (the completion detector can only rewrite
statuses to `Completed`); the detector lacks a status guard, however, so a
`Cancelled` campaign can be rewritten to `Completed` (see the
counterexample). -/
theorem C5_theorem :
    (∀ (db : DB) (pk now : Nat) (c : Campaign), findCampaign db pk = some c →
        (c.status = CStatus.completed ∨ c.status = CStatus.cancelled) →
        claim_campaign db pk now = (db, false)) ∧
    (∀ (db : DB) (cid now : Nat) (db' : DB) (trig : Bool),
        update_campaign_status_if_complete db cid now = some (db', trig) →
        List.Forall₂
          (fun c c' : Campaign =>
            c.status = CStatus.completed → c'.status = CStatus.completed)
          db.campaigns db'.campaigns) := by
  constructor
  · intro db pk now c hc hterm
    unfold claim_campaign
    rw [hc]
    have hns : ¬ c.status = CStatus.scheduled := by
      rcases hterm with h | h <;> simp [h]
    exact if_neg hns
  · intro db cid now db' trig h
    unfold update_campaign_status_if_complete at h
    cases hc : findCampaign db cid with
    | none => rw [hc] at h; exact Option.noConfusion h
    | some c =>
      rw [hc] at h
      simp only [] at h
      split at h
      · injection h with h1
        injection h1 with ha hb
        subst ha
        exact List.forall₂_same.mpr (fun x _ hx => hx)
      · split at h
        · injection h with h1
          injection h1 with ha hb
          subst ha
          exact forall₂_campaigns_saveStatus db cid .completed now _
            (fun c hx => hx) (fun c _ => rfl)
        · injection h with h1
          injection h1 with ha hb
          subst ha
          exact List.forall₂_same.mpr (fun x _ hx => hx)

/-- C5, witness: the preserved part at a concrete cancelled campaign — the
Scheduler's claim skips it and leaves the state unchanged. -/
theorem C5_witness :
    claim_campaign dbCancelled 1 3 = (dbCancelled, false) :=
  C5_theorem.1 dbCancelled 1 3 campCancelledFx (by decide) (Or.inr (by decide))

/-- Unfolding the claim body when the row is gone at re-read time. -/
theorem claim_campaign_eq_none (db : DB) (pk now : Nat)
    (h : findCampaign db pk = none) :
    claim_campaign db pk now = (db, false) := by
  unfold claim_campaign
  rw [h]

/-- Unfolding the claim body when the re-read row is still `Scheduled`. -/
theorem claim_campaign_eq_pos (db : DB) (pk now : Nat) (c : Campaign)
    (hc : findCampaign db pk = some c) (hs : c.status = CStatus.scheduled) :
    claim_campaign db pk now = (saveStatus db pk .in_progress now, true) := by
  unfold claim_campaign
  rw [hc]
  exact if_pos hs

/-- Unfolding the claim body when the re-read row is no longer `Scheduled`. -/
theorem claim_campaign_eq_neg (db : DB) (pk now : Nat) (c : Campaign)
    (hc : findCampaign db pk = some c) (hs : c.status ≠ CStatus.scheduled) :
    claim_campaign db pk now = (db, false) := by
  unfold claim_campaign
  rw [hc]
  exact if_neg hs

/-- C6: the Scheduler's claim re-reads the row and behaves as specified —
it writes `InProgress` exactly when the re-read status is still
`Scheduled`, is a silent no-op in every other case (including a vanished
row), and once a claim has succeeded, any further claim of the same
campaign fails, so the claim succeeds for at most one caller. -/
theorem C6_theorem :
    (∀ (db : DB) (pk now : Nat) (c : Campaign), findCampaign db pk = some c →
        c.status = CStatus.scheduled →
        claim_campaign db pk now = (saveStatus db pk .in_progress now, true) ∧
        (findCampaign (saveStatus db pk .in_progress now) pk).map Campaign.status =
          some CStatus.in_progress) ∧
    (∀ (db : DB) (pk now : Nat) (c : Campaign), findCampaign db pk = some c →
        c.status ≠ CStatus.scheduled → claim_campaign db pk now = (db, false)) ∧
    (∀ (db : DB) (pk now : Nat), findCampaign db pk = none →
        claim_campaign db pk now = (db, false)) ∧
    (∀ (db : DB) (pk now now2 : Nat) (db1 : DB),
        claim_campaign db pk now = (db1, true) →
        claim_campaign db1 pk now2 = (db1, false)) := by
  refine ⟨?_, ?_, ?_, ?_⟩
  · intro db pk now c hc hs
    refine ⟨claim_campaign_eq_pos db pk now c hc hs, ?_⟩
    rw [findCampaign_saveStatus, hc]
    rfl
  · exact fun db pk now c hc hs => claim_campaign_eq_neg db pk now c hc hs
  · exact fun db pk now h => claim_campaign_eq_none db pk now h
  · intro db pk now now2 db1 h
    cases hc : findCampaign db pk with
    | none =>
      rw [claim_campaign_eq_none db pk now hc] at h
      injection h with h1 h2
      exact Bool.noConfusion h2
    | some c =>
      by_cases hs : c.status = CStatus.scheduled
      · rw [claim_campaign_eq_pos db pk now c hc hs] at h
        injection h with h1 h2
        subst h1
        exact claim_campaign_eq_neg _ pk now2 _
          (by rw [findCampaign_saveStatus, hc]; rfl) (by simp)
      · rw [claim_campaign_eq_neg db pk now c hc hs] at h
        injection h with h1 h2
        exact Bool.noConfusion h2

/-- C6, witness: the claim at a due scheduled campaign succeeds and leaves
the row `InProgress`. -/
theorem C6_witness :
    claim_campaign dbSched 1 20 = (saveStatus dbSched 1 .in_progress 20, true) ∧
      (findCampaign (saveStatus dbSched 1 .in_progress 20) 1).map Campaign.status =
        some CStatus.in_progress :=
  C6_theorem.1 dbSched 1 20 campScheduledFx (by decide) (by decide)

/-- Unfolding `ensureJoins` over a cons cell. -/
theorem ensureJoins_cons (db : DB) (cid now : Nat) (r : Recipient)
    (rs : List Recipient) :
    ensureJoins db cid (r :: rs) now =
      ensureJoins (getOrCreateCampaignRecipient db cid r.id now) cid rs now := rfl

/-- The join-table `get_or_create` touches no other table. -/
theorem getOrCreate_tables (db : DB) (cid rid now : Nat) :
    (getOrCreateCampaignRecipient db cid rid now).campaigns = db.campaigns ∧
    (getOrCreateCampaignRecipient db cid rid now).recipients = db.recipients ∧
    (getOrCreateCampaignRecipient db cid rid now).delivery_logs = db.delivery_logs := by
  unfold getOrCreateCampaignRecipient
  split <;> exact ⟨rfl, rfl, rfl⟩

/-- The dispatcher's join loop touches no table besides the join table. -/
theorem ensureJoins_tables (cid now : Nat) (rs : List Recipient) (db : DB) :
    (ensureJoins db cid rs now).campaigns = db.campaigns ∧
    (ensureJoins db cid rs now).recipients = db.recipients ∧
    (ensureJoins db cid rs now).delivery_logs = db.delivery_logs := by
  induction rs generalizing db with
  | nil => exact ⟨rfl, rfl, rfl⟩
  | cons r rs ih =>
    rw [ensureJoins_cons]
    obtain ⟨ha, hb, hc⟩ := ih (getOrCreateCampaignRecipient db cid r.id now)
    obtain ⟨ha', hb', hc'⟩ := getOrCreate_tables db cid r.id now
    exact ⟨ha.trans ha', hb.trans hb', hc.trans hc'⟩

/-- After `get_or_create`, the pair's join row exists. -/
theorem joinExists_getOrCreate_self (db : DB) (cid rid now : Nat) :
    joinExists (getOrCreateCampaignRecipient db cid rid now) cid rid = true := by
  unfold getOrCreateCampaignRecipient
  split
  · next h => exact h
  · unfold joinExists
    simp [List.any_append]

/-- Because `get_or_create` only adds rows, existing joins keep existing. -/
theorem joinExists_getOrCreate_mono (db : DB) (cid rid cid' rid' now : Nat)
    (h : joinExists db cid' rid' = true) :
    joinExists (getOrCreateCampaignRecipient db cid rid now) cid' rid' = true := by
  unfold getOrCreateCampaignRecipient
  split
  · exact h
  · unfold joinExists at h ⊢
    simp only [List.any_eq_true, decide_eq_true_eq] at h
    simp [List.any_append, List.any_eq_true]
    exact Or.inl h

/-- The join loop only adds rows, so existing joins keep existing. -/
theorem joinExists_ensureJoins_mono (cid now : Nat) (rs : List Recipient)
    (db : DB) (cid' rid' : Nat) (h : joinExists db cid' rid' = true) :
    joinExists (ensureJoins db cid rs now) cid' rid' = true := by
  induction rs generalizing db with
  | nil => exact h
  | cons r rs ih =>
    rw [ensureJoins_cons]
    exact ih _ (joinExists_getOrCreate_mono db cid r.id cid' rid' now h)

/-- After the join loop, every listed recipient has a join row. -/
theorem joinExists_ensureJoins_all (cid now : Nat) (rs : List Recipient)
    (db : DB) :
    ∀ r ∈ rs, joinExists (ensureJoins db cid rs now) cid r.id = true := by
  induction rs generalizing db with
  | nil => intro r hr; cases hr
  | cons x rs ih =>
    intro r hr
    rw [ensureJoins_cons]
    rcases List.mem_cons.mp hr with h | h
    · subst h
      exact joinExists_ensureJoins_mono cid now rs _ cid r.id
        (joinExists_getOrCreate_self db cid r.id now)
    · exact ih _ r h

/-- Running `get_or_create` for a pair whose join row exists changes nothing. -/
theorem getOrCreate_noop (db : DB) (cid rid now : Nat)
    (h : joinExists db cid rid = true) :
    getOrCreateCampaignRecipient db cid rid now = db := by
  unfold getOrCreateCampaignRecipient
  rw [h]
  rfl

/-- The join loop over recipients whose joins all exist changes nothing. -/
theorem ensureJoins_noop (cid now : Nat) (rs : List Recipient) (db : DB)
    (h : ∀ r ∈ rs, joinExists db cid r.id = true) :
    ensureJoins db cid rs now = db := by
  induction rs with
  | nil => rfl
  | cons r rs ih =>
    rw [ensureJoins_cons, getOrCreate_noop db cid r.id now (h r (by simp))]
    exact ih (fun x hx => h x (by simp [hx]))

/-- The dispatcher's fold splits into the join loop and the issued tasks. -/
theorem dispatch_fold_spec (cid now : Nat) (rs : List Recipient) (db : DB)
    (acc : List (Nat × Nat)) :
    rs.foldl (fun (st : DB × List (Nat × Nat)) r =>
        (getOrCreateCampaignRecipient st.1 cid r.id now, st.2 ++ [(cid, r.id)]))
      (db, acc) =
      (ensureJoins db cid rs now, acc ++ rs.map (fun r => (cid, r.id))) := by
  induction rs generalizing db acc with
  | nil => simp [ensureJoins]
  | cons r rs ih =>
    rw [List.foldl_cons, ih, ensureJoins_cons]
    simp

/-- Unfolding `send_campaign_emails` when the campaign exists. -/
theorem send_campaign_emails_eq (db : DB) (cid now : Nat) (c : Campaign)
    (hc : findCampaign db cid = some c) :
    send_campaign_emails db cid now =
      some (ensureJoins db cid (orderById (subscribedRecipients db)) now,
            (orderById (subscribedRecipients db)).map (fun r => (cid, r.id))) := by
  unfold send_campaign_emails
  rw [hc]
  exact congrArg some (dispatch_fold_spec cid now (orderById (subscribedRecipients db)) db [])

/-- Lookups depend only on the tables they read. -/
theorem findCampaign_congr (db db' : DB) (pk : Nat)
    (h : db'.campaigns = db.campaigns) : findCampaign db' pk = findCampaign db pk := by
  unfold findCampaign
  rw [h]

/-- The subscribed-recipient enumeration depends only on the recipients. -/
theorem subscribedRecipients_congr (db db' : DB)
    (h : db'.recipients = db.recipients) :
    subscribedRecipients db' = subscribedRecipients db := by
  unfold subscribedRecipients
  rw [h]

/-- C2, counterexample: in a state where recipient 1 already has a
`DeliveryLog` for campaign 1, re-running the dispatcher still issues one
delivery task for that recipient instead of zero. -/
theorem C2_counterexample :
    pairLogCount dbLogged.delivery_logs 1 1 = 1 ∧
    (send_campaign_emails dbLogged 1 3).map Prod.snd = some [(1, 1)] := by decide

/-- C2 (amended): re-running the dispatcher is effect-free on the database —
it creates no duplicate `CampaignRecipient` rows (the second run returns the
state of the first unchanged) and writes no `DeliveryLog` rows at all — but
it does not check the delivery ledger: each run issues one delivery task per
subscribed recipient, including recipients that already have a
`DeliveryLog` for the campaign. -/
theorem C2_theorem (db : DB) (cid now now2 : Nat) (db1 : DB)
    (t1 : List (Nat × Nat)) (db2 : DB) (t2 : List (Nat × Nat))
    (h1 : send_campaign_emails db cid now = some (db1, t1))
    (h2 : send_campaign_emails db1 cid now2 = some (db2, t2)) :
    db2 = db1 ∧ t2 = t1 ∧ db1.delivery_logs = db.delivery_logs ∧
      t1 = (orderById (subscribedRecipients db)).map (fun r => (cid, r.id)) := by
  cases hc : findCampaign db cid with
  | none =>
    exfalso
    unfold send_campaign_emails at h1
    rw [hc] at h1
    exact Option.noConfusion h1
  | some c =>
    rw [send_campaign_emails_eq db cid now c hc] at h1
    injection h1 with h1'
    injection h1' with hdb1 ht1
    obtain ⟨hca, hre, hdl⟩ :=
      ensureJoins_tables cid now (orderById (subscribedRecipients db)) db
    have hc1 : findCampaign db1 cid = some c := by
      rw [← hdb1, findCampaign_congr db _ cid hca]
      exact hc
    have hsub1 : subscribedRecipients db1 = subscribedRecipients db := by
      rw [← hdb1]
      exact subscribedRecipients_congr db _ hre
    rw [send_campaign_emails_eq db1 cid now2 c hc1, hsub1] at h2
    have hnoop : ensureJoins db1 cid (orderById (subscribedRecipients db)) now2 = db1 := by
      refine ensureJoins_noop cid now2 _ db1 (fun r hr => ?_)
      rw [← hdb1]
      exact joinExists_ensureJoins_all cid now (orderById (subscribedRecipients db)) db r hr
    rw [hnoop] at h2
    injection h2 with h2'
    injection h2' with hdb2 ht2
    refine ⟨hdb2.symm, ?_, ?_, ht1.symm⟩
    · rw [← ht2, ← ht1]
    · rw [← hdb1]
      exact hdl

/-- C2, witness: the amended statement at the concrete already-dispatched,
already-logged state, where both runs return the state unchanged and both
issue the same single task. -/
theorem C2_witness :
    dbLogged = dbLogged ∧ ([(1, 1)] : List (Nat × Nat)) = [(1, 1)] ∧
      dbLogged.delivery_logs = dbLogged.delivery_logs ∧
      ([(1, 1)] : List (Nat × Nat)) =
        (orderById (subscribedRecipients dbLogged)).map (fun r => (1, r.id)) :=
  C2_theorem dbLogged 1 3 4 dbLogged [(1, 1)] dbLogged [(1, 1)]
    (by decide) (by decide)

/-- The completion detector never raises when the campaign exists. -/
theorem detector_total (db : DB) (cid now : Nat) (c : Campaign)
    (hc : findCampaign db cid = some c) :
    ∃ p, update_campaign_status_if_complete db cid now = some p := by
  by_cases h0 : (subscribedRecipients db).length = 0
  · exact ⟨(db, false), detector_zero db cid now c hc h0⟩
  · by_cases hge : (campaignLogs db cid).length ≥ (subscribedRecipients db).length
    · exact ⟨_, detector_complete db cid now c hc h0 hge⟩
    · exact ⟨(db, false),
        detector_incomplete db cid now c hc h0 (Nat.lt_of_not_le hge)⟩

/-- C8: whenever campaign and recipient exist, `send_single_email` returns
normally for both transport outcomes — it never re-raises the send error.
It appends exactly one `DeliveryLog` row carrying the pair, the recipient's
email and the send time, with status `sent` and empty `failure_reason` on
success, or status `failed` and the exception's description on failure; it
then runs the completion detector on the state with the appended row. -/
theorem C8_theorem (db : DB) (cid rid : Nat) (res : SendResult) (now : Nat)
    (c : Campaign) (r : Recipient)
    (hc : findCampaign db cid = some c) (hr : findRecipient db rid = some r) :
    ∃ db' trig log,
      send_single_email db cid rid res now = some (db', trig) ∧
      db'.delivery_logs = db.delivery_logs ++ [log] ∧
      log.campaign_id = cid ∧ log.recipient_id = rid ∧
      log.recipient_email = r.email ∧ log.sent_at = now ∧
      (res = .success → log.status = .sent ∧ log.failure_reason = "") ∧
      (∀ reason, res = .failure reason →
        log.status = .failed ∧ log.failure_reason = reason) ∧
      update_campaign_status_if_complete
          { db with delivery_logs := db.delivery_logs ++ [log] } cid now =
        some (db', trig) := by
  obtain ⟨⟨dbr, trig⟩, hp⟩ := detector_total
    { db with delivery_logs :=
        db.delivery_logs ++ [mkDeliveryLog cid rid r.email res now] }
    cid now c hc
  refine ⟨dbr, trig, mkDeliveryLog cid rid r.email res now, ?_, ?_, ?_, ?_, ?_, ?_, ?_, ?_, hp⟩
  · unfold send_single_email
    rw [hc, hr]
    exact hp
  · obtain ⟨hl, -, -⟩ := detector_fields _ _ _ _ _ hp
    exact hl
  · cases res <;> rfl
  · cases res <;> rfl
  · cases res <;> rfl
  · cases res <;> rfl
  · intro h
    subst h
    exact ⟨rfl, rfl⟩
  · intro reason h
    subst h
    exact ⟨rfl, rfl⟩

/-- C8, witness: the statement at the concrete state, with a failing send. -/
theorem C8_witness :
    ∃ db' trig log,
      send_single_email dbLogged 1 1 (.failure "SMTP timeout") 7 = some (db', trig) ∧
      db'.delivery_logs = dbLogged.delivery_logs ++ [log] ∧
      log.campaign_id = 1 ∧ log.recipient_id = 1 ∧
      log.recipient_email = rSub.email ∧ log.sent_at = 7 ∧
      ((.failure "SMTP timeout" : SendResult) = .success →
        log.status = .sent ∧ log.failure_reason = "") ∧
      (∀ reason, (.failure "SMTP timeout" : SendResult) = .failure reason →
        log.status = .failed ∧ log.failure_reason = reason) ∧
      update_campaign_status_if_complete
          { dbLogged with delivery_logs := dbLogged.delivery_logs ++ [log] } 1 7 =
        some (db', trig) :=
  C8_theorem dbLogged 1 1 (.failure "SMTP timeout") 7 campIP rSub
    (by decide) (by decide)

/-- C9: both writers of `Campaign.status` — the Scheduler's claim and the
completion detector's transition — leave every campaign row's `name`,
`subject`, `content`, `scheduled_time`, `created_at` and `id` unchanged:
row for row, the result agrees with the input on all fields other than
`status` and `updated_at`. -/
theorem C9_theorem :
    (∀ (db : DB) (pk now : Nat),
        List.Forall₂ frameAgrees db.campaigns
          (claim_campaign db pk now).1.campaigns) ∧
    (∀ (db : DB) (cid now : Nat) (db' : DB) (trig : Bool),
        update_campaign_status_if_complete db cid now = some (db', trig) →
        List.Forall₂ frameAgrees db.campaigns db'.campaigns) := by
  constructor
  · intro db pk now
    cases hc : findCampaign db pk with
    | none =>
      rw [claim_campaign_eq_none db pk now hc]
      exact List.forall₂_same.mpr (fun c _ => ⟨rfl, rfl, rfl, rfl, rfl, rfl⟩)
    | some c =>
      by_cases hs : c.status = CStatus.scheduled
      · rw [claim_campaign_eq_pos db pk now c hc hs]
        exact forall₂_campaigns_saveStatus db pk .in_progress now frameAgrees
          (fun x => ⟨rfl, rfl, rfl, rfl, rfl, rfl⟩)
          (fun x => ⟨rfl, rfl, rfl, rfl, rfl, rfl⟩)
      · rw [claim_campaign_eq_neg db pk now c hc hs]
        exact List.forall₂_same.mpr (fun x _ => ⟨rfl, rfl, rfl, rfl, rfl, rfl⟩)
  · intro db cid now db' trig h
    cases hc : findCampaign db cid with
    | none =>
      rw [detector_none db cid now hc] at h
      exact Option.noConfusion h
    | some c =>
      by_cases h0 : (subscribedRecipients db).length = 0
      · rw [detector_zero db cid now c hc h0] at h
        injection h with h1
        injection h1 with ha hb
        subst ha
        exact List.forall₂_same.mpr (fun x _ => ⟨rfl, rfl, rfl, rfl, rfl, rfl⟩)
      · by_cases hge : (campaignLogs db cid).length ≥ (subscribedRecipients db).length
        · rw [detector_complete db cid now c hc h0 hge] at h
          injection h with h1
          injection h1 with ha hb
          subst ha
          exact forall₂_campaigns_saveStatus db cid .completed now frameAgrees
            (fun x => ⟨rfl, rfl, rfl, rfl, rfl, rfl⟩)
            (fun x => ⟨rfl, rfl, rfl, rfl, rfl, rfl⟩)
        · rw [detector_incomplete db cid now c hc h0 (Nat.lt_of_not_le hge)] at h
          injection h with h1
          injection h1 with ha hb
          subst ha
          exact List.forall₂_same.mpr (fun x _ => ⟨rfl, rfl, rfl, rfl, rfl, rfl⟩)

/-- C9, witness: the detector part at a concrete state (the cancelled
campaign that gets completed — even there, only status and timestamp
move). -/
theorem C9_witness :
    List.Forall₂ frameAgrees dbCancelled.campaigns
      (saveStatus dbCancelled 1 .completed 9).campaigns :=
  C9_theorem.2 dbCancelled 1 9 (saveStatus dbCancelled 1 .completed 9) true
    (by decide)

/-- Python's `x or d` keeps a non-empty string. -/
theorem pyOr_some (s d : String) (h : s ≠ "") : pyOr (some s) d = s := by
  unfold pyOr
  exact if_neg h

/-- The ingestion step reads a row only through the three defaulted
fields. -/
theorem ingestRow_eq_of_fields (st : IngestState) (row row' : RawRow)
    (h1 : pyOr row.name "" = pyOr row'.name "")
    (h2 : pyOr row.email "" = pyOr row'.email "")
    (h3 : pyOr row.subscription_status "subscribed" =
      pyOr row'.subscription_status "subscribed") :
    ingestRow st row = ingestRow st row' := by
  simp only [ingestRow]
  rw [h1, h2, h3]

/-- C7: the ingestion loop trims the name, trims and lowercases the email,
counts a row invalid when name or email is empty after trimming, skips a
row whose normalized email is already known (stored or accepted earlier in
the batch), defaults an unrecognized subscription status to `subscribed`,
and on the spec's three-row example against an empty store reports exactly
1 created, 1 skipped duplicate and 1 invalid. -/
theorem C7_theorem :
    recipient_upload [] csvExample = { created := 1, skipped := 1, invalid := 1 } ∧
    (ingestRows [] [{ name := some "  A  ", email := some " A@X.com ", subscription_status := some "sUbScRiBeD" }]).to_create =
      [("A", "a@x.com", "subscribed")] ∧
    (∀ (st : IngestState) (row : RawRow),
        pyStrip (pyOr row.name "") = "" ∨ pyLower (pyStrip (pyOr row.email "")) = "" →
        ingestRow st row = { st with invalid := st.invalid + 1 }) ∧
    (∀ (st : IngestState) (row : RawRow),
        pyStrip (pyOr row.name "") ≠ "" →
        pyLower (pyStrip (pyOr row.email "")) ≠ "" →
        pyLower (pyStrip (pyOr row.email "")) ∈ st.existing →
        ingestRow st row = { st with skipped := st.skipped + 1 }) ∧
    (∀ (st : IngestState) (row : RawRow),
        pyStrip (pyOr row.name "") ≠ "" →
        pyLower (pyStrip (pyOr row.email "")) ≠ "" →
        pyLower (pyStrip (pyOr row.email "")) ∉ st.existing →
        pyLower (pyOr row.subscription_status "subscribed") ≠ "subscribed" →
        pyLower (pyOr row.subscription_status "subscribed") ≠ "unsubscribed" →
        ingestRow st row = { st with
          to_create := st.to_create ++
            [(pyStrip (pyOr row.name ""), pyLower (pyStrip (pyOr row.email "")),
              "subscribed")],
          existing := pyLower (pyStrip (pyOr row.email "")) :: st.existing }) := by
  refine ⟨by decide, by decide, ?_, ?_, ?_⟩
  · intro st row h
    simp only [ingestRow]
    rw [if_pos h]
  · intro st row h1 h2 h3
    simp only [ingestRow]
    rw [if_neg (not_or.mpr ⟨h1, h2⟩), if_pos h3]
  · intro st row h1 h2 h3 h4 h5
    simp only [ingestRow]
    rw [if_neg (not_or.mpr ⟨h1, h2⟩), if_neg (not_or.mpr ⟨h4, h5⟩), if_neg h3]

/-- C7, witness: a row whose normalized email is already stored is skipped
as a duplicate. -/
theorem C7_witness :
    ingestRow
        { existing := ["a@x.com"], to_create := [], skipped := 0, invalid := 0 }
        { name := some "B", email := some "A@X.com ",
          subscription_status := some "subscribed" } =
      { existing := ["a@x.com"], to_create := [], skipped := 1, invalid := 0 } :=
  C7_theorem.2.2.2.1 _ _ (by decide) (by decide) (by decide)

/-- Every ingestion step accounts for its row in exactly one counter. -/
theorem ingestRow_adds_one (st : IngestState) (row : RawRow) :
    (ingestRow st row).to_create.length + (ingestRow st row).skipped +
        (ingestRow st row).invalid =
      st.to_create.length + st.skipped + st.invalid + 1 := by
  simp only [ingestRow]
  split
  · dsimp only
    omega
  · split
    · dsimp only
      omega
    · dsimp only
      simp only [List.length_append, List.length_cons, List.length_nil]
      omega

/-- The row loop accounts for every row of the batch. -/
theorem ingestRows_accounting (rows : List RawRow) (st : IngestState) :
    (rows.foldl ingestRow st).to_create.length + (rows.foldl ingestRow st).skipped +
        (rows.foldl ingestRow st).invalid =
      st.to_create.length + st.skipped + st.invalid + rows.length := by
  induction rows generalizing st with
  | nil => simp
  | cons row rows ih =>
    rw [List.foldl_cons]
    rw [ih (ingestRow st row)]
    rw [ingestRow_adds_one st row]
    simp [List.length_cons]
    omega

/-- C10: ingestion is total over arbitrary row shapes — each row lands in
exactly one of the created / skipped / invalid counters, so the reported
counts always sum to the batch size and no row can abort the batch; a row
missing the name or email key behaves exactly like one carrying the empty
value; a row missing the subscription_status key behaves exactly like one
carrying `subscribed`; and a status value differing from a recognized
choice only in letter case is lowercased and recognized (stored, not
defaulted). -/
theorem C10_theorem :
    (∀ (storeEmails : List String) (rows : List RawRow),
        (recipient_upload storeEmails rows).created +
            (recipient_upload storeEmails rows).skipped +
            (recipient_upload storeEmails rows).invalid = rows.length) ∧
    (∀ (st : IngestState) (e s : Option String),
        ingestRow st { name := none, email := e, subscription_status := s } =
          ingestRow st { name := some "", email := e, subscription_status := s }) ∧
    (∀ (st : IngestState) (n s : Option String),
        ingestRow st { name := n, email := none, subscription_status := s } =
          ingestRow st { name := n, email := some "", subscription_status := s }) ∧
    (∀ (st : IngestState) (n e : Option String),
        ingestRow st { name := n, email := e, subscription_status := none } =
          ingestRow st { name := n, email := e, subscription_status := some "subscribed" }) ∧
    (∀ (st : IngestState) (row : RawRow) (s : String),
        row.subscription_status = some s → s ≠ "" → pyLower s = "unsubscribed" →
        pyStrip (pyOr row.name "") ≠ "" →
        pyLower (pyStrip (pyOr row.email "")) ≠ "" →
        pyLower (pyStrip (pyOr row.email "")) ∉ st.existing →
        ingestRow st row = { st with
          to_create := st.to_create ++
            [(pyStrip (pyOr row.name ""), pyLower (pyStrip (pyOr row.email "")),
              "unsubscribed")],
          existing := pyLower (pyStrip (pyOr row.email "")) :: st.existing }) := by
  refine ⟨?_, ?_, ?_, ?_, ?_⟩
  · intro storeEmails rows
    have h := ingestRows_accounting rows
      { existing := storeEmails, to_create := [], skipped := 0, invalid := 0 }
    simpa [recipient_upload, ingestRows] using h
  · intro st e s
    exact ingestRow_eq_of_fields st _ _
      (show pyOr none "" = pyOr (some "") "" by decide) rfl rfl
  · intro st n s
    exact ingestRow_eq_of_fields st _ _ rfl
      (show pyOr none "" = pyOr (some "") "" by decide) rfl
  · intro st n e
    exact ingestRow_eq_of_fields st _ _ rfl rfl
      (show pyOr none "subscribed" = pyOr (some "subscribed") "subscribed" by decide)
  · intro st row s hs hne hlow h1 h2 h3
    simp only [ingestRow]
    rw [if_neg (not_or.mpr ⟨h1, h2⟩), hs, pyOr_some s _ hne, hlow,
      if_pos (Or.inr rfl), if_neg h3]

/-- C10, witness: an upper-case `UNSUBSCRIBED` status is recognized after
lowercasing and stored as `unsubscribed`, not defaulted. -/
theorem C10_witness :
    ingestRow { existing := [], to_create := [], skipped := 0, invalid := 0 }
        { name := some "C", email := some "c@x.com",
          subscription_status := some "UNSUBSCRIBED" } =
      { existing := ["c@x.com"], to_create := [("C", "c@x.com", "unsubscribed")],
        skipped := 0, invalid := 0 } :=
  C10_theorem.2.2.2.2 _ _ "UNSUBSCRIBED" rfl (by decide) (by decide)
    (by decide) (by decide) (by decide)

end BulkMailer
